import Mathlib

/-!
Verification development for the vscode-logging repository.

The embedding follows src/src/Logger.ts and src/src/LoggingMessage.ts.  The
winston logging pipeline configured there (src/src/Logger.ts lines 142-187)
is modelled explicitly: the logger-level format chain
simple / metadata / timestamp / printf produces one rendered line which every
transport without an own format writes verbatim, and each transport filters
records by severity (npm levels: error 0, warn 1, info 2, debug 5; a
transport accepts a record whose severity is at most the transport's level,
a transport without an own level uses the logger's level, here "debug").

Two pieces of behaviour that the specification and the repository's own test
suite and changelog describe are absent from the src snapshot of Logger.ts
and LoggingMessage.ts (the ignoreFormatForOutputChannel raw-channel mode and
the recovery path for a failing notification).  Those definitions are
modelled from the spec and carry a doc comment saying so.
-/

namespace VSCodeLogging

/-- The four log levels (src/src/LoggingMessage.ts line 10). -/
inductive Level where
  | debug
  | info
  | warn
  | error
deriving DecidableEq, Repr

/-- Rendered name of a level, as winston prints it into the line. -/
def Level.name : Level → String
  | Level.debug => "debug"
  | Level.info => "info"
  | Level.warn => "warn"
  | Level.error => "error"

/-- Numeric npm severity used by winston (lower is more severe). -/
def Level.severity : Level → Nat
  | Level.error => 0
  | Level.warn => 1
  | Level.info => 2
  | Level.debug => 5

/-- The error payload as winston consults it: an optional message and an
optional stack text.  The empty string stands for an absent or falsy field,
matching the truthiness checks in winston's meta handling and in the printf
of src/src/Logger.ts line 153. -/
structure ErrVal where
  message : String
  stack : String
deriving DecidableEq, Repr

/-- Modelled from the spec: the log record.  The fields message, notifyUser
and error follow the LoggingMessage interface of src/src/LoggingMessage.ts
lines 16-38.  The optional ignoreFormatForOutputChannel flag is missing from
the src snapshot of LoggingMessage.ts and Logger.ts; the repository's test
suite and changelog exercise it, and the spec describes it: when true, the
Channel Writer receives the raw message only, while the file sinks still
receive the fully formatted line. -/
structure LoggingMessage where
  message : String
  notifyUser : Bool := false
  error : Option ErrVal := none
  ignoreFormatForOutputChannel : Bool := false
deriving DecidableEq, Repr

/-- A logging message together with its level
(src/src/LoggingMessage.ts lines 6-11). -/
structure LoggingMessageWithLevel extends LoggingMessage where
  level : Level
deriving DecidableEq, Repr

/-- The info object after winston's logger-level processing: the call
logger.error(msg, meta) with an object meta appends a space and the meta's
message to the record message when that message is truthy, and exposes the
meta's stack; the later metadata() format moves the stack under
info.metadata, which the printf of src/src/Logger.ts line 153 reads.
The timestamp() format (src lines 148-150) fills the timestamp field. -/
structure WInfo where
  level : Level
  message : String
  stack : String
  timestamp : String
deriving DecidableEq, Repr

/-- Builds the winston info object for one log call.  Only the error method
of the Logger passes a meta value (src/src/Logger.ts line 77); debug, info
and warn pass the plain message (src lines 95, 109, 123). -/
def mkInfo (ts : String) (lvl : Level) (msg : String) : Option ErrVal → WInfo
  | none => { level := lvl, message := msg, stack := "", timestamp := ts }
  | some e =>
      { level := lvl
        message := if e.message = "" then msg else msg ++ " " ++ e.message
        stack := e.stack
        timestamp := ts }

/-- The rendered line of the logger-level printf
(src/src/Logger.ts lines 152-154): timestamp, space, bracketed level, space,
message, then the stack from the metadata or the empty string. -/
def fileLine (i : WInfo) : String :=
  i.timestamp ++ " [" ++ i.level.name ++ "] " ++ i.message ++ i.stack

/-- The rendered line of the console transport's own printf
(src/src/Logger.ts line 183); the ANSI colour wrapping of the level added by
colorize() is not modelled, no claim inspects the console text. -/
def consoleLine (i : WInfo) : String :=
  "[" ++ i.level.name ++ "]: " ++ i.message ++ i.stack

/-- Modelled from the spec: the entry the output channel transport appends.
The src snapshot of VSCodeOutputChannelTransport
(src/src/Logger.ts lines 209-230) always appends the formatted line; the
raw branch taken when ignoreFormatForOutputChannel is true is missing from
the snapshot and follows the spec's words: the channel receives exactly the
raw record message, with no timestamp or level prefix. -/
def channelEntry (raw : Bool) (recordMessage : String) (i : WInfo) : String :=
  if raw then recordMessage else fileLine i

/-- One user-facing notification request: the level decides which of the
show...Message functions is called, together with the message text and the
selectable action labels passed along (src/src/Logger.ts lines 79, 97, 111). -/
structure Notification where
  level : Level
  message : String
  actions : List String
deriving DecidableEq, Repr

/-- The sink writes produced by one dispatched record: appended lines of the
general log file, of error.log, of the output channel and of the console,
and the raised notifications. -/
structure Effects where
  generalLines : List String := []
  errorLines : List String := []
  channelLines : List String := []
  consoleLines : List String := []
  notifications : List Notification := []
deriving DecidableEq, Repr

/-- Whether a transport with the given own level accepts a record of level l;
a transport without an own level uses the logger's level, which is debug
(src/src/Logger.ts line 143). -/
def acceptedBy (transportLevel : Option Level) (l : Level) : Bool :=
  l.severity ≤ (transportLevel.getD Level.debug).severity

/-- One write through the winston logger configured in initializeLogger
(src/src/Logger.ts lines 142-187): the general file transport has no own
level, the channel transport's level is info, the error.log transport's
level is error, and the console transport exists only outside production. -/
def winstonWrite (production : Bool) (ts : String) (lvl : Level) (msg : String)
    (meta : Option ErrVal) (raw : Bool) (recordMessage : String) : Effects :=
  if lvl.severity ≤ Level.debug.severity then
    let i := mkInfo ts lvl msg meta
    { generalLines := [fileLine i]
      errorLines := if acceptedBy (some Level.error) lvl then [fileLine i] else []
      channelLines := if acceptedBy (some Level.info) lvl then [channelEntry raw recordMessage i] else []
      consoleLines := if production then [] else [consoleLine i]
      notifications := [] }
  else {}

/-- The state of the vscode output channel created at initialization; its
disposal is owned by the host through the subscription list. -/
structure OutputChannel where
  name : String
  disposed : Bool := false
deriving DecidableEq, Repr

/-- The singleton Logger instance: the winston logger (whose only claim
relevant state is whether its stream has been ended and whether the console
transport was attached) and the output channel
(src/src/Logger.ts lines 10-24). -/
structure LoggerInstance where
  channel : OutputChannel
  ended : Bool := false
  production : Bool := true
deriving DecidableEq, Repr

/-- The reveal request issued by showOutputChannel
(src/src/Logger.ts lines 42-44). -/
structure Reveal where
  channelName : String
  preserveFocus : Option Bool
deriving DecidableEq, Repr

namespace Logger

/-- The error method (src/src/Logger.ts lines 76-85): writes through winston
with the record's error as meta, and when notifyUser is set raises an error
notification carrying the single selectable action "Open output".  A write
on an ended winston stream throws before reaching any transport, which the
Except.error value models. -/
def error (st : LoggerInstance) (ts : String) (m : LoggingMessage) : Except String Effects :=
  if st.ended then Except.error "write after end"
  else Except.ok
    { winstonWrite st.production ts Level.error m.message m.error
        m.ignoreFormatForOutputChannel m.message with
      notifications :=
        if m.notifyUser then [{ level := Level.error, message := m.message, actions := ["Open output"] }] else [] }

/-- The warn method (src/src/Logger.ts lines 94-99): writes the plain
message through winston and, when notifyUser is set, raises a warning
notification with no selectable actions. -/
def warn (st : LoggerInstance) (ts : String) (m : LoggingMessage) : Except String Effects :=
  if st.ended then Except.error "write after end"
  else Except.ok
    { winstonWrite st.production ts Level.warn m.message none
        m.ignoreFormatForOutputChannel m.message with
      notifications :=
        if m.notifyUser then [{ level := Level.warn, message := m.message, actions := [] }] else [] }

/-- The info method (src/src/Logger.ts lines 108-113): writes the plain
message through winston and, when notifyUser is set, raises an information
notification with no selectable actions. -/
def info (st : LoggerInstance) (ts : String) (m : LoggingMessage) : Except String Effects :=
  if st.ended then Except.error "write after end"
  else Except.ok
    { winstonWrite st.production ts Level.info m.message none
        m.ignoreFormatForOutputChannel m.message with
      notifications :=
        if m.notifyUser then [{ level := Level.info, message := m.message, actions := [] }] else [] }

/-- The debug method (src/src/Logger.ts lines 122-124): writes the plain
message through winston and never notifies the user. -/
def debug (st : LoggerInstance) (ts : String) (m : LoggingMessage) : Except String Effects :=
  if st.ended then Except.error "write after end"
  else Except.ok
    (winstonWrite st.production ts Level.debug m.message none
      m.ignoreFormatForOutputChannel m.message)

/-- The log method (src/src/Logger.ts lines 51-66): switches on the record's
level and delegates to the level-specific method. -/
def log (st : LoggerInstance) (ts : String) (m : LoggingMessageWithLevel) : Except String Effects :=
  match m.level with
  | Level.error => error st ts m.toLoggingMessage
  | Level.warn => warn st ts m.toLoggingMessage
  | Level.info => info st ts m.toLoggingMessage
  | Level.debug => debug st ts m.toLoggingMessage

/-- The showOutputChannel method (src/src/Logger.ts lines 42-44): reveals
the output channel, regardless of any other state. -/
def showOutputChannel (st : LoggerInstance) (preserveFocus : Option Bool) : Reveal :=
  { channelName := st.channel.name, preserveFocus := preserveFocus }

/-- The static getLogger accessor (src/src/Logger.ts lines 30-35): throws a
distinguishable error while no instance exists, and returns the singleton
instance afterwards. -/
def getLogger : Option LoggerInstance → Except String LoggerInstance
  | none => Except.error "no instance of the logger was created"
  | some inst => Except.ok inst

/-- The result of initializeLogger: the new static instance field and the
disposables registered on the extension context's subscription list. -/
structure InitResult where
  state : Option LoggerInstance
  subscriptions : List OutputChannel
deriving DecidableEq, Repr

/-- The static initializeLogger method (src/src/Logger.ts lines 131-191):
creates the output channel named after the extension, registers it on the
context's subscriptions so that the host disposes it, creates the winston
logger (with a console transport exactly when not in production) and
installs the singleton instance. -/
def initializeLogger (production : Bool) (name : String) : InitResult :=
  let channel : OutputChannel := { name := name }
  { state := some { channel := channel, ended := false, production := production }
    subscriptions := [channel] }

/-- The static end method (src/src/Logger.ts lines 198-202): a no-op while
no instance exists, otherwise it ends the underlying winston logger and
touches nothing else. -/
def endLogging : Option LoggerInstance → Option LoggerInstance
  | none => none
  | some inst => some { inst with ended := true }

end Logger

/-- Whether the installed instance's winston stream has been ended. -/
def isEnded : Option LoggerInstance → Bool
  | none => false
  | some inst => inst.ended

/-- The operations available on the logger after initialization; the
specification's single-initialization contract excludes re-initialization.
The log-family methods never assign a field of the instance, so only opEnd
changes the static state. -/
inductive Op where
  | opLog (m : LoggingMessageWithLevel)
  | opDebug (m : LoggingMessage)
  | opInfo (m : LoggingMessage)
  | opWarn (m : LoggingMessage)
  | opError (m : LoggingMessage)
  | opShow (preserveFocus : Option Bool)
  | opEnd
deriving Repr

/-- State transition of one operation on the static logger state. -/
def applyOp (s : Option LoggerInstance) : Op → Option LoggerInstance
  | Op.opEnd => Logger.endLogging s
  | _ => s

/-- The effects carried by a successful log call, and no effects at all for
a failed one (the winston stream throws before reaching any transport). -/
def effectsOf : Except String Effects → Effects
  | Except.ok e => e
  | Except.error _ => {}

/-- The outcome of the asynchronous wait on one raised notification: either
the user's selection (or none, on dismissal), or a failure of the
presentation mechanism itself. -/
inductive NotifyOutcome where
  | selected (choice : Option String)
  | failed (cause : ErrVal)
deriving Repr

/-- The dialog-result handler attached to a notification: only the error
method attaches one (src/src/Logger.ts lines 79-83), and it reveals the
channel exactly when the selection is "Open output". -/
def followUpReveals (lvl : Level) (dialogResult : Option String) : Bool :=
  match lvl with
  | Level.error => dialogResult == some "Open output"
  | _ => false

/-- Modelled from the spec: the synthetic record produced when the
notification presentation mechanism fails.  The recovery path is missing
from the src snapshot of Logger.ts (the repository's test suite exercises
it); per the spec the failure is caught and re-logged once as an error-level
record whose message describes the failed level and the underlying cause,
and the synthetic record never carries notifyUser. -/
def notifyFailureRecord (lvl : Level) (cause : ErrVal) : LoggingMessage :=
  { message := "Error showing the " ++ lvl.name ++ " message: " ++ cause.message
    notifyUser := false
    error := none
    ignoreFormatForOutputChannel := false }

/-- Modelled from the spec: processing of the asynchronous follow-up of one
raised notification.  On a selection the attached handler decides whether
the channel is revealed (that branch follows src/src/Logger.ts lines 79-83)
and nothing is logged; on a presentation failure the failure is caught (the
function is total, nothing propagates to the original caller, who has
already returned) and the synthetic record is dispatched once through the
normal pipeline.  The pair returned is (channel revealed, re-log effects). -/
def processNotification (st : LoggerInstance) (ts : String) (n : Notification) :
    NotifyOutcome → Bool × Effects
  | NotifyOutcome.selected choice => (followUpReveals n.level choice, {})
  | NotifyOutcome.failed cause =>
      (false, effectsOf (Logger.error st ts (notifyFailureRecord n.level cause)))

/-- Modelled from the spec: one full dispatch against a notification
mechanism that always fails: the original call, then the single-level
failure re-log of every notification it raised.  The synthetic records
raise no notification of their own, so the process stops there. -/
def dispatchWithFailingNotifier (st : LoggerInstance) (ts₁ ts₂ : String)
    (cause : ErrVal) (m : LoggingMessageWithLevel) : Effects × List Effects :=
  let first := effectsOf (Logger.log st ts₁ m)
  (first, first.notifications.map (fun n => (processNotification st ts₂ n (NotifyOutcome.failed cause)).2))

/-- A concrete live instance used by the witness theorems. -/
def sampleInstance : LoggerInstance := { channel := { name := "MyLogger" } }

/-- A concrete instance whose winston stream has been ended, used by the
witness theorems. -/
def endedInstance : LoggerInstance := { channel := { name := "MyLogger" }, ended := true }

/-- C7: calling getLogger before initialize has ever completed fails with
the distinguishable not-initialized error; after initialize completes it
returns the one installed singleton instance; calling end when the logger
was never initialized is a no-op. -/
theorem c7_lifecycle_accessor :
    Logger.getLogger none = Except.error "no instance of the logger was created" ∧
    (∀ (production : Bool) (name : String),
      Logger.getLogger (Logger.initializeLogger production name).state =
        Except.ok { channel := { name := name }, ended := false, production := production }) ∧
    Logger.endLogging none = none :=
  ⟨rfl, fun _ _ => rfl, rfl⟩

/-- C9: for every record carrying a level field, the log entry point behaves
identically to the corresponding level-specific wrapper applied to the same
record: it delegates to it outright, so the sink writes and notifications
coincide. -/
theorem c9_log_delegates_to_wrappers :
    ∀ (st : LoggerInstance) (ts : String) (m : LoggingMessageWithLevel),
      (m.level = Level.debug → Logger.log st ts m = Logger.debug st ts m.toLoggingMessage) ∧
      (m.level = Level.info → Logger.log st ts m = Logger.info st ts m.toLoggingMessage) ∧
      (m.level = Level.warn → Logger.log st ts m = Logger.warn st ts m.toLoggingMessage) ∧
      (m.level = Level.error → Logger.log st ts m = Logger.error st ts m.toLoggingMessage) := by
  intro st ts m
  refine ⟨fun h => ?_, fun h => ?_, fun h => ?_, fun h => ?_⟩ <;> simp [Logger.log, h]

/-- Witness for C9 at a concrete info-level record. -/
theorem c9_log_delegates_to_wrappers_witness :
    Logger.log sampleInstance "2024-01-01 12:00:00" { message := "hello", level := Level.info } =
      Logger.info sampleInstance "2024-01-01 12:00:00" { message := "hello" } :=
  (c9_log_delegates_to_wrappers sampleInstance "2024-01-01 12:00:00"
    { message := "hello", level := Level.info }).2.1 rfl

/-- Ending preserves the ended flag through any single post-initialization
operation. -/
lemma isEnded_applyOp (s : Option LoggerInstance) (op : Op) (h : isEnded s = true) :
    isEnded (applyOp s op) = true := by
  cases s with
  | none => simp [isEnded] at h
  | some inst =>
      cases op <;> simp [applyOp, Logger.endLogging, isEnded] at h ⊢ <;> exact h

/-- Ending preserves the ended flag through any sequence of
post-initialization operations. -/
lemma isEnded_foldl (ops : List Op) :
    ∀ s, isEnded s = true → isEnded (ops.foldl applyOp s) = true := by
  induction ops with
  | nil => intro s h; exact h
  | cons op ops ih => intro s h; exact ih _ (isEnded_applyOp s op h)

/-- C6: after end has been called, every log-family call (log, debug, info,
warn, error) on the instance fails with the write-after-end error of the
ended winston stream, no further line is appended to either log file or to
the output channel (a failed call carries no effects), and the terminal
state survives any sequence of post-initialization operations. -/
theorem c6_terminal_state :
    ∀ (inst : LoggerInstance) (ts : String), inst.ended = true →
      (∀ m : LoggingMessageWithLevel, Logger.log inst ts m = Except.error "write after end") ∧
      (∀ m : LoggingMessage, Logger.debug inst ts m = Except.error "write after end") ∧
      (∀ m : LoggingMessage, Logger.info inst ts m = Except.error "write after end") ∧
      (∀ m : LoggingMessage, Logger.warn inst ts m = Except.error "write after end") ∧
      (∀ m : LoggingMessage, Logger.error inst ts m = Except.error "write after end") ∧
      (∀ m : LoggingMessageWithLevel, effectsOf (Logger.log inst ts m) = {}) ∧
      (∀ ops : List Op, isEnded (ops.foldl applyOp (some inst)) = true) := by
  intro inst ts h
  have hdebug : ∀ m : LoggingMessage, Logger.debug inst ts m = Except.error "write after end" := by
    intro m; simp [Logger.debug, h]
  have hinfo : ∀ m : LoggingMessage, Logger.info inst ts m = Except.error "write after end" := by
    intro m; simp [Logger.info, h]
  have hwarn : ∀ m : LoggingMessage, Logger.warn inst ts m = Except.error "write after end" := by
    intro m; simp [Logger.warn, h]
  have herror : ∀ m : LoggingMessage, Logger.error inst ts m = Except.error "write after end" := by
    intro m; simp [Logger.error, h]
  have hlog : ∀ m : LoggingMessageWithLevel, Logger.log inst ts m = Except.error "write after end" := by
    intro m
    cases hl : m.level <;>
      simp [Logger.log, hl, hdebug m.toLoggingMessage, hinfo m.toLoggingMessage,
        hwarn m.toLoggingMessage, herror m.toLoggingMessage]
  refine ⟨hlog, hdebug, hinfo, hwarn, herror, fun m => ?_, fun ops => isEnded_foldl ops _ ?_⟩
  · rw [hlog m]; rfl
  · simpa [isEnded] using h

/-- Witness for C6 at a concrete ended instance and debug record. -/
theorem c6_terminal_state_witness :
    Logger.debug endedInstance "2024-01-01 12:00:00" { message := "should not log" } =
      Except.error "write after end" :=
  (c6_terminal_state endedInstance "2024-01-01 12:00:00" rfl).2.1 { message := "should not log" }

/-- C10: end ends only the underlying winston logger: the resulting instance
differs from the old one in the ended flag alone, so the output channel is
neither disposed nor cleared and showOutputChannel still issues the same
reveal afterwards; the channel's disposal is delegated to the host through
the subscription registered at initialization. -/
theorem c10_end_frame :
    ∀ (inst : LoggerInstance) (p : Option Bool) (production : Bool) (name : String),
      Logger.endLogging (some inst) =
        some { channel := inst.channel, ended := true, production := inst.production } ∧
      Logger.showOutputChannel
          { channel := inst.channel, ended := true, production := inst.production } p =
        Logger.showOutputChannel inst p ∧
      (Logger.initializeLogger production name).subscriptions = [{ name := name, disposed := false }] ∧
      (Logger.initializeLogger production name).state =
        some { channel := { name := name, disposed := false }, ended := false, production := production } :=
  fun _ _ _ _ => ⟨rfl, rfl, rfl, rfl⟩

/-- C3: a debug-level record, whatever its notifyUser flag and attached
error value, produces no channel entry, no error.log line and no
notification; it is written only to the general log file, besides the
console echo that exists exactly outside production.  The log entry point
routes a debug-level record into the same method. -/
theorem c3_debug_gating :
    ∀ (st : LoggerInstance) (ts : String), st.ended = false →
      (∀ m : LoggingMessage,
        Logger.debug st ts m = Except.ok
          { generalLines := [fileLine (mkInfo ts Level.debug m.message none)]
            errorLines := []
            channelLines := []
            consoleLines := if st.production then [] else [consoleLine (mkInfo ts Level.debug m.message none)]
            notifications := [] }) ∧
      (∀ m : LoggingMessageWithLevel, m.level = Level.debug →
        Logger.log st ts m = Logger.debug st ts m.toLoggingMessage) := by
  intro st ts h
  constructor
  · intro m
    simp [Logger.debug, h, winstonWrite, acceptedBy, Level.severity]
  · intro m hl
    simp [Logger.log, hl]

/-- Witness for C3 at a concrete debug record with notifyUser set and an
error attached. -/
theorem c3_debug_gating_witness :
    Logger.debug sampleInstance "2024-01-01 12:00:00"
        { message := "myMessage", notifyUser := true, error := some { message := "dummy", stack := "tr" } } =
      Except.ok
        { generalLines := ["2024-01-01 12:00:00 [debug] myMessage"]
          errorLines := []
          channelLines := []
          consoleLines := []
          notifications := [] } :=
  (c3_debug_gating sampleInstance "2024-01-01 12:00:00" rfl).1
    { message := "myMessage", notifyUser := true, error := some { message := "dummy", stack := "tr" } }

/-- C4: for every error-level record dispatched successfully, the line
appended to error.log is character-identical to the line appended to the
general log file: both transports write the one line rendered by the shared
logger-level format. -/
theorem c4_error_duplication :
    ∀ (st : LoggerInstance) (ts : String) (m : LoggingMessage), st.ended = false →
      (effectsOf (Logger.error st ts m)).errorLines = (effectsOf (Logger.error st ts m)).generalLines ∧
      (effectsOf (Logger.error st ts m)).errorLines = [fileLine (mkInfo ts Level.error m.message m.error)] := by
  intro st ts m h
  constructor <;> simp [Logger.error, h, effectsOf, winstonWrite, acceptedBy, Level.severity]

/-- Witness for C4 at a concrete error record. -/
theorem c4_error_duplication_witness :
    (effectsOf (Logger.error sampleInstance "2024-01-01 12:00:00" { message := "myMessage" })).errorLines =
      (effectsOf (Logger.error sampleInstance "2024-01-01 12:00:00" { message := "myMessage" })).generalLines :=
  (c4_error_duplication sampleInstance "2024-01-01 12:00:00" { message := "myMessage" } rfl).1

/-- The rendered line of an error-level record carrying an error whose
message is nonempty, spelled out as one flat concatenation. -/
lemma fileLine_error_with_meta (ts msg M T : String) (hM : M ≠ "") :
    fileLine (mkInfo ts Level.error msg (some { message := M, stack := T })) =
      ts ++ " [error] " ++ msg ++ " " ++ M ++ T := by
  simp [fileLine, mkInfo, hM, Level.name, String.append_assoc]

/-- C5: the rendered file line is the timestamp, a space, the bracketed
level, a space, then the message.  For an error-level record carrying an
error with a nonempty message M and a trace text T, the line ends with M
immediately followed by T with no injected separator; for an error value
with no trace the line ends with M exactly, no placeholder is fabricated
and the rendering is total.  The timestamp argument is the string produced
by the timestamp format configured with layout YYYY-MM-DD HH:mm:ss
(src/src/Logger.ts lines 148-150). -/
theorem c5_trace_fidelity :
    ∀ (st : LoggerInstance) (ts : String) (m : LoggingMessage) (M T : String),
      st.ended = false →
      (m.error = none →
        (effectsOf (Logger.error st ts m)).generalLines =
          [ts ++ " [" ++ Level.name Level.error ++ "] " ++ m.message]) ∧
      (m.error = some { message := M, stack := T } → M ≠ "" →
        (effectsOf (Logger.error st ts m)).generalLines =
          [ts ++ " [error] " ++ m.message ++ " " ++ M ++ T] ∧
        (effectsOf (Logger.error st ts m)).generalLines =
          [(ts ++ " [error] " ++ m.message ++ " ") ++ (M ++ T)]) ∧
      (m.error = some { message := M, stack := "" } → M ≠ "" →
        (effectsOf (Logger.error st ts m)).generalLines =
          [ts ++ " [error] " ++ m.message ++ " " ++ M]) := by
  intro st ts m M T h
  refine ⟨fun he => ?_, fun he hM => ⟨?_, ?_⟩, fun he hM => ?_⟩
  · simp [Logger.error, h, he, effectsOf, winstonWrite, acceptedBy, Level.severity,
      fileLine, mkInfo, Level.name, String.append_assoc, String.append_empty]
  · simp [Logger.error, h, he, effectsOf, winstonWrite, acceptedBy, Level.severity,
      fileLine, mkInfo, hM, Level.name, String.append_assoc]
  · simp [Logger.error, h, he, effectsOf, winstonWrite, acceptedBy, Level.severity,
      fileLine, mkInfo, hM, Level.name, String.append_assoc]
  · simp [Logger.error, h, he, effectsOf, winstonWrite, acceptedBy, Level.severity,
      fileLine, mkInfo, hM, Level.name, String.append_assoc, String.append_empty]

/-- Witness for C5 at a concrete error record with an attached trace. -/
theorem c5_trace_fidelity_witness :
    (effectsOf (Logger.error sampleInstance "2024-01-01 12:00:00"
        { message := "myMessage", error := some { message := "unit test", stack := " - my stack trace" } })).generalLines =
      ["2024-01-01 12:00:00 [error] myMessage unit test - my stack trace"] := by
  have h := ((c5_trace_fidelity sampleInstance "2024-01-01 12:00:00"
    { message := "myMessage", error := some { message := "unit test", stack := " - my stack trace" } }
    "unit test" " - my stack trace" rfl).2.1 rfl (by decide)).1
  exact h

/-- C1: for a dispatched record with ignoreFormatForOutputChannel set, at
the three channel-visible levels the output channel receives exactly the
raw record message while the general file receives the fully formatted line
for the same call (error.log additionally receives it at level error, and
nothing at the lower levels, which never reach that sink); the flag changes
nothing for either file sink; and when the flag is cleared the channel
receives the same formatted line as the files. -/
theorem c1_channel_raw_mode :
    ∀ (st : LoggerInstance) (ts : String) (m : LoggingMessage), st.ended = false →
      (m.ignoreFormatForOutputChannel = true →
        (effectsOf (Logger.info st ts m)).channelLines = [m.message] ∧
        (effectsOf (Logger.warn st ts m)).channelLines = [m.message] ∧
        (effectsOf (Logger.error st ts m)).channelLines = [m.message] ∧
        (effectsOf (Logger.info st ts m)).generalLines = [fileLine (mkInfo ts Level.info m.message none)] ∧
        (effectsOf (Logger.warn st ts m)).generalLines = [fileLine (mkInfo ts Level.warn m.message none)] ∧
        (effectsOf (Logger.error st ts m)).generalLines = [fileLine (mkInfo ts Level.error m.message m.error)] ∧
        (effectsOf (Logger.error st ts m)).errorLines = [fileLine (mkInfo ts Level.error m.message m.error)] ∧
        (effectsOf (Logger.info st ts m)).errorLines = [] ∧
        (effectsOf (Logger.warn st ts m)).errorLines = []) ∧
      (∀ b₁ b₂ : Bool,
        (effectsOf (Logger.info st ts { m with ignoreFormatForOutputChannel := b₁ })).generalLines =
          (effectsOf (Logger.info st ts { m with ignoreFormatForOutputChannel := b₂ })).generalLines ∧
        (effectsOf (Logger.warn st ts { m with ignoreFormatForOutputChannel := b₁ })).generalLines =
          (effectsOf (Logger.warn st ts { m with ignoreFormatForOutputChannel := b₂ })).generalLines ∧
        (effectsOf (Logger.error st ts { m with ignoreFormatForOutputChannel := b₁ })).generalLines =
          (effectsOf (Logger.error st ts { m with ignoreFormatForOutputChannel := b₂ })).generalLines ∧
        (effectsOf (Logger.error st ts { m with ignoreFormatForOutputChannel := b₁ })).errorLines =
          (effectsOf (Logger.error st ts { m with ignoreFormatForOutputChannel := b₂ })).errorLines) ∧
      (m.ignoreFormatForOutputChannel = false →
        (effectsOf (Logger.info st ts m)).channelLines = (effectsOf (Logger.info st ts m)).generalLines ∧
        (effectsOf (Logger.warn st ts m)).channelLines = (effectsOf (Logger.warn st ts m)).generalLines ∧
        (effectsOf (Logger.error st ts m)).channelLines = (effectsOf (Logger.error st ts m)).generalLines) := by
  intro st ts m h
  refine ⟨fun hflag => ?_, fun b₁ b₂ => ?_, fun hflag => ?_⟩
  · simp [Logger.info, Logger.warn, Logger.error, h, effectsOf, winstonWrite,
      acceptedBy, Level.severity, channelEntry, hflag]
  · simp [Logger.info, Logger.warn, Logger.error, h, effectsOf, winstonWrite,
      acceptedBy, Level.severity]
  · simp [Logger.info, Logger.warn, Logger.error, h, effectsOf, winstonWrite,
      acceptedBy, Level.severity, channelEntry, hflag]

/-- Witness for C1 at a concrete info record with the flag set. -/
theorem c1_channel_raw_mode_witness :
    (effectsOf (Logger.info sampleInstance "2024-01-01 12:00:00"
        { message := "myMessage", ignoreFormatForOutputChannel := true })).channelLines = ["myMessage"] :=
  (((c1_channel_raw_mode sampleInstance "2024-01-01 12:00:00"
    { message := "myMessage", ignoreFormatForOutputChannel := true } rfl).1 rfl)).1

/-- C8: with notifyUser set, an error-level dispatch raises its notification
with exactly the one selectable action labelled "Open output", while info
and warn dispatches raise theirs with the raw message and no selectable
actions; the channel reveal is invoked on a selection outcome if and only if
the notification is the error-level one and the selection is that action
(any other selection or a dismissal does nothing, and nothing is logged by a
selection).  The log call itself only issues the notification: its returned
effects do not depend on the outcome, which the separate follow-up
processing receives later. -/
theorem c8_notification_follow_up :
    ∀ (st : LoggerInstance) (ts : String) (m : LoggingMessage), st.ended = false → m.notifyUser = true →
      (effectsOf (Logger.error st ts m)).notifications =
        [{ level := Level.error, message := m.message, actions := ["Open output"] }] ∧
      (effectsOf (Logger.warn st ts m)).notifications =
        [{ level := Level.warn, message := m.message, actions := [] }] ∧
      (effectsOf (Logger.info st ts m)).notifications =
        [{ level := Level.info, message := m.message, actions := [] }] ∧
      (∀ (n : Notification) (choice : Option String),
        ((processNotification st ts n (NotifyOutcome.selected choice)).1 = true ↔
          n.level = Level.error ∧ choice = some "Open output") ∧
        (processNotification st ts n (NotifyOutcome.selected choice)).2 = {}) := by
  intro st ts m h hn
  refine ⟨?_, ?_, ?_, fun n choice => ⟨?_, rfl⟩⟩
  · simp [Logger.error, h, hn, effectsOf]
  · simp [Logger.warn, h, hn, effectsOf]
  · simp [Logger.info, h, hn, effectsOf]
  · cases hl : n.level <;> simp [processNotification, followUpReveals, hl]

/-- Witness for C8 at a concrete error record with notifyUser set. -/
theorem c8_notification_follow_up_witness :
    (effectsOf (Logger.error sampleInstance "2024-01-01 12:00:00"
        { message := "myMessage", notifyUser := true })).notifications =
      [{ level := Level.error, message := "myMessage", actions := ["Open output"] }] :=
  (c8_notification_follow_up sampleInstance "2024-01-01 12:00:00"
    { message := "myMessage", notifyUser := true } rfl rfl).1

/-- C2: when a notification wait fails, the failure is handled by a total
function (nothing propagates to the original caller) and converted into the
synthetic record, which never carries notifyUser; even against a
notification mechanism that always fails, one original call with notifyUser
at the levels info, warn or error raises exactly one notification and hence
produces exactly one re-logged dispatch, whose message names the failed
level and the underlying cause; that dispatch writes the synthetic record
once to each file sink and raises no notification of its own, so the
recursion stops after the single level. -/
theorem c2_notify_failure_single_relog :
    ∀ (st : LoggerInstance) (ts₁ ts₂ : String) (cause : ErrVal) (m : LoggingMessageWithLevel),
      st.ended = false → m.notifyUser = true →
      (m.level = Level.info ∨ m.level = Level.warn ∨ m.level = Level.error) →
      (notifyFailureRecord m.level cause).notifyUser = false ∧
      (notifyFailureRecord m.level cause).message =
        "Error showing the " ++ m.level.name ++ " message: " ++ cause.message ∧
      (dispatchWithFailingNotifier st ts₁ ts₂ cause m).1.notifications.length = 1 ∧
      (dispatchWithFailingNotifier st ts₁ ts₂ cause m).2 =
        [effectsOf (Logger.error st ts₂ (notifyFailureRecord m.level cause))] ∧
      (∀ e ∈ (dispatchWithFailingNotifier st ts₁ ts₂ cause m).2,
        e.notifications = [] ∧
        e.generalLines = [fileLine (mkInfo ts₂ Level.error (notifyFailureRecord m.level cause).message none)] ∧
        e.errorLines = e.generalLines) := by
  intro st ts₁ ts₂ cause m h hn hlvl
  rcases hlvl with hl | hl | hl <;>
    simp [dispatchWithFailingNotifier, Logger.log, Logger.info, Logger.warn, Logger.error,
      processNotification, effectsOf, h, hn, hl, notifyFailureRecord, winstonWrite,
      acceptedBy, Level.severity]

/-- Witness for C2 at a concrete warn record against an always-failing
notifier. -/
theorem c2_notify_failure_single_relog_witness :
    (dispatchWithFailingNotifier sampleInstance "2024-01-01 12:00:00" "2024-01-01 12:00:01"
        { message := "foo", stack := "" }
        { message := "myMessage", notifyUser := true, level := Level.warn }).2 =
      [effectsOf (Logger.error sampleInstance "2024-01-01 12:00:01"
        (notifyFailureRecord Level.warn { message := "foo", stack := "" }))] :=
  (c2_notify_failure_single_relog sampleInstance "2024-01-01 12:00:00" "2024-01-01 12:00:01"
    { message := "foo", stack := "" }
    { message := "myMessage", notifyUser := true, level := Level.warn }
    rfl rfl (Or.inr (Or.inl rfl))).2.2.2.1

end VSCodeLogging
